import Mathlib

/-
Verification of the p5-sketch runtime-error evaluator (src/check-error.js).

The program is a single orchestration routine: check that the input HTML
file exists, launch a headless browser, attach a page-error listener and a
console listener, navigate to the file URL, wait a fixed observation
window, then report the collected errors.  We embed it shallowly: the
external world (filesystem, browser engine, event delivery) is an explicit
environment record, the collector callbacks are pure state transformers on
the two buffers plus the diagnostic stream, and the control flow of
evaluateP5Sketch becomes a pure function from the environment to the
returned result record.  The order of operations the routine performs is
embedded separately as an action trace, so that temporal and
resource-safety properties (listener attachment before navigation, session
open/close accounting) can be stated.
-/

/-- Substring utilities embedding the JavaScript method text.includes(sub).
strLeads hay needle decides whether needle is an initial segment of hay. -/
def strLeads : List Char → List Char → Bool
  | _, [] => true
  | [], _ :: _ => false
  | a :: s, b :: t => a == b && strLeads s t

/-- strHasSub hay needle decides whether needle occurs contiguously in hay. -/
def strHasSub : List Char → List Char → Bool
  | [], t => t.isEmpty
  | a :: s, t => strLeads (a :: s) t || strHasSub s t

/-- strIncludes s sub embeds the JavaScript s.includes(sub). -/
def strIncludes (s sub : String) : Bool :=
  strHasSub s.data sub.data

/-- The benign-filter marker string of src/check-error.js line 39. -/
def failedToLoadResource : String := "Failed to load resource"

/-- A JavaScript error value as the program consumes it: a message and a
stack trace (err.message, err.stack). -/
structure JsError where
  message : String
  stack : String
deriving DecidableEq, Repr

/-- A console message as delivered to the listener of line 35: its severity
string (msg.type of the source: "error", "warning", "log", or other) and
its text (msg.text). -/
structure ConsoleMsg where
  type : String
  text : String
deriving DecidableEq, Repr

/-- One event delivered by the page to the two listeners attached at lines
29 and 35: an uncaught page exception or a console message. -/
inductive PageEvent where
  | pageError (e : JsError)
  | console (m : ConsoleMsg)
deriving DecidableEq, Repr

/-- One entry of the errors array of the result: the object literals pushed
at lines 31, 41 and 82.  The stack field is none exactly when the source
object carries no stack property (the console.error entries of line 41). -/
structure ObservedError where
  type : String
  message : String
  stack : Option String
deriving DecidableEq, Repr

/-- The mutable state written by the two listeners: the errors array of
line 7, the consoleErrors array of line 8, and the lines written to the
operator-facing diagnostic stream (console.error / process.stderr.write). -/
structure Collector where
  errors : List ObservedError
  consoleErrors : List ObservedError
  stderrOut : List String
deriving DecidableEq, Repr

/-- The pageerror listener of lines 29-32: log the message to the
diagnostic stream and push a pageerror entry with message and stack. -/
def onPageError (c : Collector) (err : JsError) : Collector :=
  { c with
    stderrOut := c.stderrOut ++ ["Page error (uncaught exception): " ++ err.message],
    errors := c.errors ++ [⟨"pageerror", err.message, some err.stack⟩] }

/-- The console listener of lines 35-48: on severity "error", buffer and
emit unless the text contains the benign marker; on "warning" and "log",
emit to the diagnostic stream only; otherwise do nothing. -/
def onConsoleMsg (c : Collector) (m : ConsoleMsg) : Collector :=
  if m.type = "error" then
    if !(strIncludes m.text failedToLoadResource) then
      { c with
        stderrOut := c.stderrOut ++ ["Console error: " ++ m.text],
        consoleErrors := c.consoleErrors ++ [⟨"console.error", m.text, none⟩] }
    else c
  else if m.type = "warning" then
    { c with stderrOut := c.stderrOut ++ ["Console warning: " ++ m.text] }
  else if m.type = "log" then
    { c with stderrOut := c.stderrOut ++ ["Console log: " ++ m.text] }
  else c

/-- Dispatch one delivered event to the listener registered for it. -/
def step (c : Collector) (e : PageEvent) : Collector :=
  match e with
  | .pageError err => onPageError c err
  | .console m => onConsoleMsg c m

/-- The collector state after the given events were delivered, in order,
starting from the empty buffers of lines 7-8. -/
def runEvents (es : List PageEvent) : Collector :=
  es.foldl step { errors := [], consoleErrors := [], stderrOut := [] }

/-- The pageerror entries produced by an event sequence, in delivery
order: the specification-level reading of the errors buffer. -/
def pageErrorsOf : List PageEvent → List ObservedError
  | [] => []
  | .pageError e :: t => ⟨"pageerror", e.message, some e.stack⟩ :: pageErrorsOf t
  | .console _ :: t => pageErrorsOf t

/-- The console.error entries produced by an event sequence, in delivery
order, after the benign filter: the specification-level reading of the
consoleErrors buffer. -/
def consoleErrorsOf : List PageEvent → List ObservedError
  | [] => []
  | .pageError _ :: t => consoleErrorsOf t
  | .console m :: t =>
    if m.type = "error" then
      if !(strIncludes m.text failedToLoadResource) then
        ⟨"console.error", m.text, none⟩ :: consoleErrorsOf t
      else consoleErrorsOf t
    else consoleErrorsOf t

/-- The diagnostic-stream lines produced by an event sequence, in delivery
order. -/
def stderrOf : List PageEvent → List String
  | [] => []
  | .pageError e :: t => ("Page error (uncaught exception): " ++ e.message) :: stderrOf t
  | .console m :: t =>
    if m.type = "error" then
      if !(strIncludes m.text failedToLoadResource) then
        ("Console error: " ++ m.text) :: stderrOf t
      else stderrOf t
    else if m.type = "warning" then
      ("Console warning: " ++ m.text) :: stderrOf t
    else if m.type = "log" then
      ("Console log: " ++ m.text) :: stderrOf t
    else stderrOf t

/-- The result record the function returns: success flag, message, and the
errors array, which is absent (none) when the returned object literal has
no errors property (lines 13 and 70-73). -/
structure EvalResult where
  success : Bool
  message : String
  errors : Option (List ObservedError)
deriving DecidableEq, Repr

/-- The environment of one invocation: whether fs.existsSync finds the
input path, whether puppeteer.launch, browser.newPage or page.goto throws
(and with which error value), and the events the page delivers to the two
listeners between their attachment and the read of the buffers at line 58. -/
structure Env where
  fileExists : Bool
  launchThrow : Option JsError
  newPageThrow : Option JsError
  navThrow : Option JsError
  events : List PageEvent
deriving DecidableEq, Repr

/-- The catch-block result of lines 76-83: a single puppeteer_error entry
carrying the underlying message and stack. -/
def puppeteerFailure (e : JsError) : EvalResult :=
  { success := false
    message := "Puppeteer or navigation error: " ++ e.message
    errors := some [⟨"puppeteer_error", e.message, some e.stack⟩] }

/-- The report step of lines 58-74: merge the two buffers, page errors
first, and return the success or failure record. -/
def reportResult (es : List PageEvent) : EvalResult :=
  let collected := runEvents es
  let allErrors := collected.errors ++ collected.consoleErrors
  if allErrors.length > 0 then
    { success := false, message := "Runtime errors detected.", errors := some allErrors }
  else
    { success := true, message := "No runtime errors detected.", errors := none }

/-- The value returned by evaluateP5Sketch (lines 5-90) in the given
environment: the early return of line 13 when the file is missing, the
catch-block result when launch, newPage or goto throws (in that order,
mirroring the first throw inside the try block), and otherwise the report
built from the delivered events. -/
def evaluateP5Sketch (env : Env) (htmlFilePath : String) : EvalResult :=
  if env.fileExists = false then
    { success := false, message := "HTML file not found: " ++ htmlFilePath, errors := none }
  else
    match env.launchThrow with
    | some e => puppeteerFailure e
    | none =>
      match env.newPageThrow with
      | some e => puppeteerFailure e
      | none =>
        match env.navThrow with
        | some e => puppeteerFailure e
        | none => reportResult env.events

/-- The externally visible operations evaluateP5Sketch performs, used to
state ordering and resource-accounting properties. -/
inductive EvalAction where
  | checkFile
  | launchOk
  | launchFailed
  | newPageOk
  | newPageFailed
  | attachPageErrorListener
  | attachConsoleListener
  | navigate
  | waitObservation
  | closeBrowser
deriving DecidableEq, Repr

/-- The sequence of operations the function performs in the given
environment, following the control flow of lines 11-89: the existence
check returns before any launch; a launch throw leaves the browser
variable undefined, so the finally block of lines 84-89 skips the close;
any later throw still reaches the close because the browser variable is
set. -/
def trace (env : Env) : List EvalAction :=
  if env.fileExists = false then [EvalAction.checkFile]
  else
    match env.launchThrow with
    | some _ => [EvalAction.checkFile, EvalAction.launchFailed]
    | none =>
      match env.newPageThrow with
      | some _ => [EvalAction.checkFile, EvalAction.launchOk, EvalAction.newPageFailed,
                   EvalAction.closeBrowser]
      | none =>
        match env.navThrow with
        | some _ => [EvalAction.checkFile, EvalAction.launchOk, EvalAction.newPageOk,
                     EvalAction.attachPageErrorListener, EvalAction.attachConsoleListener,
                     EvalAction.navigate, EvalAction.closeBrowser]
        | none => [EvalAction.checkFile, EvalAction.launchOk, EvalAction.newPageOk,
                   EvalAction.attachPageErrorListener, EvalAction.attachConsoleListener,
                   EvalAction.navigate, EvalAction.waitObservation, EvalAction.closeBrowser]

/-- Number of browser sessions successfully opened in one invocation. -/
def sessionsOpened (env : Env) : Nat :=
  (trace env).count EvalAction.launchOk

/-- Number of times the browser session is closed in one invocation. -/
def sessionsClosed (env : Env) : Nat :=
  (trace env).count EvalAction.closeBrowser

/-- Index of the first occurrence of an action in a trace (length of the
trace when absent). -/
def firstIdx (a : EvalAction) : List EvalAction → Nat
  | [] => 0
  | b :: t => if a = b then 0 else firstIdx a t + 1

/-- The command-line entry of lines 93-116: exit 1 on a missing positional
argument, exit 1 when a failure escapes to the top-level catch, otherwise
exit 0 exactly when the evaluation result has success = true. -/
def runCli (arg : Option String) (unhandled : Option JsError) (env : Env) : Nat :=
  match arg with
  | none => 1
  | some path =>
    match unhandled with
    | some _ => 1
    | none => if (evaluateP5Sketch env path).success then 0 else 1

/-- Folding the dispatcher from any starting collector appends exactly the
projection of the event sequence to each buffer. -/
theorem foldl_step_eq (es : List PageEvent) : ∀ c : Collector,
    List.foldl step c es =
      { errors := c.errors ++ pageErrorsOf es,
        consoleErrors := c.consoleErrors ++ consoleErrorsOf es,
        stderrOut := c.stderrOut ++ stderrOf es } := by
  induction es with
  | nil => intro c; simp [pageErrorsOf, consoleErrorsOf, stderrOf]
  | cons e t ih =>
    intro c
    cases e with
    | pageError err =>
      simp [List.foldl, step, onPageError, pageErrorsOf, consoleErrorsOf,
        stderrOf, ih, List.append_assoc]
    | console m =>
      by_cases h1 : m.type = "error"
      · by_cases h2 : strIncludes m.text failedToLoadResource = true
        · simp [List.foldl, step, onConsoleMsg, pageErrorsOf, consoleErrorsOf,
            stderrOf, h1, h2, ih]
        · rw [Bool.not_eq_true] at h2
          simp [List.foldl, step, onConsoleMsg, pageErrorsOf, consoleErrorsOf,
            stderrOf, h1, h2, ih, List.append_assoc]
      · by_cases h3 : m.type = "warning"
        · simp [List.foldl, step, onConsoleMsg, pageErrorsOf, consoleErrorsOf,
            stderrOf, h1, h3, ih, List.append_assoc]
        · by_cases h4 : m.type = "log"
          · simp [List.foldl, step, onConsoleMsg, pageErrorsOf, consoleErrorsOf,
              stderrOf, h1, h3, h4, ih, List.append_assoc]
          · simp [List.foldl, step, onConsoleMsg, pageErrorsOf, consoleErrorsOf,
              stderrOf, h1, h3, h4, ih]

/-- The collector state after a run is exactly the three projections of the
event sequence. -/
theorem runEvents_eq (es : List PageEvent) :
    runEvents es =
      { errors := pageErrorsOf es,
        consoleErrors := consoleErrorsOf es,
        stderrOut := stderrOf es } := by
  simpa [runEvents] using
    foldl_step_eq es { errors := [], consoleErrors := [], stderrOut := [] }

/-- Every entry of the page-error buffer carries the pageerror tag. -/
theorem mem_pageErrorsOf_tag (es : List PageEvent) :
    ∀ o ∈ pageErrorsOf es, o.type = "pageerror" := by
  induction es with
  | nil => intro o ho; simp [pageErrorsOf] at ho
  | cons e t ih =>
    intro o ho
    cases e with
    | pageError err =>
      rw [pageErrorsOf] at ho
      rcases List.mem_cons.mp ho with h | h
      · rw [h]
      · exact ih o h
    | console m =>
      rw [pageErrorsOf] at ho
      exact ih o ho

/-- Every entry of the console-error buffer carries the console.error tag,
has no stack field, and its text passed the benign filter. -/
theorem mem_consoleErrorsOf_filtered (es : List PageEvent) :
    ∀ o ∈ consoleErrorsOf es,
      o.type = "console.error" ∧ o.stack = none ∧
      strIncludes o.message failedToLoadResource = false := by
  induction es with
  | nil => intro o ho; simp [consoleErrorsOf] at ho
  | cons e t ih =>
    intro o ho
    cases e with
    | pageError err =>
      rw [consoleErrorsOf] at ho
      exact ih o ho
    | console m =>
      rw [consoleErrorsOf] at ho
      by_cases h1 : m.type = "error"
      · by_cases h2 : strIncludes m.text failedToLoadResource = true
        · simp [h1, h2] at ho
          exact ih o ho
        · rw [Bool.not_eq_true] at h2
          simp [h1, h2] at ho
          rcases ho with h | h
          · rw [h]
            exact ⟨rfl, rfl, h2⟩
          · exact ih o h
      · simp [h1] at ho
        exact ih o ho

/-- Every delivered uncaught page exception contributes its pageerror
entry to the page-error buffer, with its message and stack. -/
theorem pageError_mem_buffer (es : List PageEvent) (e : JsError)
    (h : PageEvent.pageError e ∈ es) :
    (⟨"pageerror", e.message, some e.stack⟩ : ObservedError) ∈ pageErrorsOf es := by
  induction es with
  | nil => simp at h
  | cons hd t ih =>
    rcases List.mem_cons.mp h with h0 | h0
    · rw [← h0, pageErrorsOf]
      exact List.mem_cons_self _ _
    · cases hd with
      | pageError err => rw [pageErrorsOf]; exact List.mem_cons_of_mem _ (ih h0)
      | console m => rw [pageErrorsOf]; exact ih h0

/-- Every delivered error-severity console message whose text passes the
benign filter contributes its console.error entry to the buffer. -/
theorem consoleError_mem_buffer (es : List PageEvent) (m : ConsoleMsg)
    (h : PageEvent.console m ∈ es) (h1 : m.type = "error")
    (h2 : strIncludes m.text failedToLoadResource = false) :
    (⟨"console.error", m.text, none⟩ : ObservedError) ∈ consoleErrorsOf es := by
  induction es with
  | nil => simp at h
  | cons hd t ih =>
    rcases List.mem_cons.mp h with h0 | h0
    · rw [← h0, consoleErrorsOf]
      simp [h1, h2]
    · cases hd with
      | pageError err => rw [consoleErrorsOf]; exact ih h0
      | console m2 =>
        rw [consoleErrorsOf]
        by_cases g1 : m2.type = "error"
        · by_cases g2 : strIncludes m2.text failedToLoadResource = true
          · simp [g1, g2]
            exact ih h0
          · rw [Bool.not_eq_true] at g2
            simp [g1, g2]
            exact Or.inr (ih h0)
        · simp [g1]
          exact ih h0

/-- Every delivered console message of severity error (unfiltered),
warning or log contributes its line to the diagnostic stream. -/
theorem console_mem_stderr (es : List PageEvent) (m : ConsoleMsg)
    (h : PageEvent.console m ∈ es) :
    (m.type = "error" → strIncludes m.text failedToLoadResource = false →
      ("Console error: " ++ m.text) ∈ stderrOf es) ∧
    (m.type = "warning" → ("Console warning: " ++ m.text) ∈ stderrOf es) ∧
    (m.type = "log" → ("Console log: " ++ m.text) ∈ stderrOf es) := by
  induction es with
  | nil => simp at h
  | cons hd t ih =>
    rcases List.mem_cons.mp h with h0 | h0
    · subst h0
      refine ⟨fun h1 h2 => ?_, fun h1 => ?_, fun h1 => ?_⟩
      · rw [stderrOf]; simp [h1, h2]
      · rw [stderrOf]
        have : m.type ≠ "error" := by rw [h1]; decide
        simp [this, h1]
      · rw [stderrOf]
        have he : m.type ≠ "error" := by rw [h1]; decide
        have hw : m.type ≠ "warning" := by rw [h1]; decide
        simp [he, hw, h1]
    · have iht := ih h0
      have key : ∀ s : String, s ∈ stderrOf t → s ∈ stderrOf (hd :: t) := by
        intro s hs
        cases hd with
        | pageError err =>
          rw [stderrOf]
          exact List.mem_cons_of_mem _ hs
        | console m2 =>
          rw [stderrOf]
          by_cases g1 : m2.type = "error"
          · by_cases g2 : strIncludes m2.text failedToLoadResource = true
            · simpa [g1, g2] using hs
            · rw [Bool.not_eq_true] at g2
              simp [g1, g2]
              exact Or.inr hs
          · by_cases g3 : m2.type = "warning"
            · simp [g1, g3]
              exact Or.inr hs
            · by_cases g4 : m2.type = "log"
              · simp [g1, g3, g4]
                exact Or.inr hs
              · simpa [g1, g3, g4] using hs
      exact ⟨fun h1 h2 => key _ (iht.1 h1 h2), fun h1 => key _ (iht.2.1 h1),
        fun h1 => key _ (iht.2.2 h1)⟩

/-- Environment of a run whose input file does not exist. -/
def envMissingFile : Env :=
  { fileExists := false, launchThrow := none, newPageThrow := none,
    navThrow := none, events := [] }

/-- Environment of a clean run in which the page delivers no events. -/
def envClean : Env :=
  { fileExists := true, launchThrow := none, newPageThrow := none,
    navThrow := none, events := [] }

/-- The error value of a failing browser launch, for witnesses. -/
def jsLaunchError : JsError :=
  ⟨"Failed to launch the browser process!", "launch stack"⟩

/-- Environment in which the browser launch throws. -/
def envLaunchFailed : Env :=
  { fileExists := true, launchThrow := some jsLaunchError, newPageThrow := none,
    navThrow := none, events := [] }

/-- Environment of a clean run in which the page delivers a console error
first and an uncaught exception second, in that wall-clock order. -/
def envMixed : Env :=
  { fileExists := true, launchThrow := none, newPageThrow := none,
    navThrow := none,
    events := [PageEvent.console ⟨"error", "oops is not defined"⟩,
               PageEvent.pageError ⟨"boom", "boom stack"⟩] }

/-- On the clean path (file found, nothing throws) the function returns
the report built from the delivered events. -/
theorem evaluateP5Sketch_clean (env : Env) (path : String)
    (hf : env.fileExists = true) (hl : env.launchThrow = none)
    (hp : env.newPageThrow = none) (hn : env.navThrow = none) :
    evaluateP5Sketch env path = reportResult env.events := by
  unfold evaluateP5Sketch
  rw [hf, hl, hp, hn]
  rfl

/-- With the file found, the result is a catch-block failure or the
report: no other result shape exists. -/
theorem evaluateP5Sketch_cases (env : Env) (path : String)
    (hf : env.fileExists = true) :
    (∃ e, evaluateP5Sketch env path = puppeteerFailure e) ∨
    evaluateP5Sketch env path = reportResult env.events := by
  unfold evaluateP5Sketch
  rw [hf]
  cases env.launchThrow with
  | some e => exact Or.inl ⟨e, rfl⟩
  | none =>
    cases env.newPageThrow with
    | some e => exact Or.inl ⟨e, rfl⟩
    | none =>
      cases env.navThrow with
      | some e => exact Or.inl ⟨e, rfl⟩
      | none => exact Or.inr rfl

/-- A missing input file forces a failure result. -/
theorem success_false_of_no_file (env : Env) (path : String)
    (hf : env.fileExists = false) :
    (evaluateP5Sketch env path).success = false := by
  unfold evaluateP5Sketch
  rw [hf]
  rfl

/-- The trace takes one of exactly five shapes, one per outcome of the
existence check and the three throwing steps. -/
theorem trace_shapes (env : Env) :
    trace env = [EvalAction.checkFile] ∨
    trace env = [EvalAction.checkFile, EvalAction.launchFailed] ∨
    trace env = [EvalAction.checkFile, EvalAction.launchOk,
      EvalAction.newPageFailed, EvalAction.closeBrowser] ∨
    trace env = [EvalAction.checkFile, EvalAction.launchOk, EvalAction.newPageOk,
      EvalAction.attachPageErrorListener, EvalAction.attachConsoleListener,
      EvalAction.navigate, EvalAction.closeBrowser] ∨
    trace env = [EvalAction.checkFile, EvalAction.launchOk, EvalAction.newPageOk,
      EvalAction.attachPageErrorListener, EvalAction.attachConsoleListener,
      EvalAction.navigate, EvalAction.waitObservation, EvalAction.closeBrowser] := by
  obtain ⟨fe, lt, npt, nt, evs⟩ := env
  cases fe <;> cases lt <;> cases npt <;> cases nt <;> simp [trace]

/-- The trace never retries: each of navigate and a successful launch
occurs at most once. -/
theorem trace_single_shot (env : Env) :
    (trace env).count EvalAction.navigate ≤ 1 ∧
    (trace env).count EvalAction.launchOk ≤ 1 := by
  rcases trace_shapes env with h | h | h | h | h <;> rw [h] <;> decide

/-- C1: when the input path does not reference an existing file,
evaluateP5Sketch returns success = false with message exactly
"HTML file not found: <path>", and no browser session is ever launched:
the trace contains neither a successful nor a failed launch step, and the
count of opened sessions is zero. -/
theorem evalC1_missing_file_no_launch (env : Env) (path : String)
    (hf : env.fileExists = false) :
    evaluateP5Sketch env path =
      { success := false, message := "HTML file not found: " ++ path,
        errors := none } ∧
    EvalAction.launchOk ∉ trace env ∧
    EvalAction.launchFailed ∉ trace env ∧
    sessionsOpened env = 0 := by
  have ht : trace env = [EvalAction.checkFile] := by
    unfold trace
    rw [hf]
    rfl
  refine ⟨?_, ?_, ?_, ?_⟩
  · unfold evaluateP5Sketch
    rw [hf]
    rfl
  · rw [ht]
    decide
  · rw [ht]
    decide
  · unfold sessionsOpened
    rw [ht]
    decide

/-- C1 witness: a concrete missing-file run. -/
theorem evalC1_witness :
    evaluateP5Sketch envMissingFile "missing.html" =
      { success := false, message := "HTML file not found: " ++ "missing.html",
        errors := none } ∧
    EvalAction.launchOk ∉ trace envMissingFile ∧
    EvalAction.launchFailed ∉ trace envMissingFile ∧
    sessionsOpened envMissingFile = 0 :=
  evalC1_missing_file_no_launch envMissingFile "missing.html" rfl

/-- C2: when the run reaches the observation window (file found, no
launch, newPage or navigation throw), success is true exactly when the
two buffers collected nothing; an empty collection yields exactly the
no-errors record, and a non-empty one yields the runtime-errors record
with the merged buffers attached. -/
theorem evalC2_success_iff_no_errors (env : Env) (path : String)
    (hf : env.fileExists = true) (hl : env.launchThrow = none)
    (hp : env.newPageThrow = none) (hn : env.navThrow = none) :
    ((evaluateP5Sketch env path).success = true ↔
      (runEvents env.events).errors ++ (runEvents env.events).consoleErrors = []) ∧
    ((runEvents env.events).errors ++ (runEvents env.events).consoleErrors = [] →
      evaluateP5Sketch env path =
        { success := true, message := "No runtime errors detected.",
          errors := none }) ∧
    ((runEvents env.events).errors ++ (runEvents env.events).consoleErrors ≠ [] →
      evaluateP5Sketch env path =
        { success := false, message := "Runtime errors detected.",
          errors := some ((runEvents env.events).errors ++
            (runEvents env.events).consoleErrors) }) := by
  rw [evaluateP5Sketch_clean env path hf hl hp hn]
  have hrep : reportResult env.events =
      if ((runEvents env.events).errors ++ (runEvents env.events).consoleErrors).length > 0 then
        { success := false, message := "Runtime errors detected.",
          errors := some ((runEvents env.events).errors ++
            (runEvents env.events).consoleErrors) }
      else
        { success := true, message := "No runtime errors detected.",
          errors := none } := rfl
  rw [hrep]
  by_cases h : ((runEvents env.events).errors ++ (runEvents env.events).consoleErrors).length > 0
  · rw [if_pos h]
    have hne : (runEvents env.events).errors ++ (runEvents env.events).consoleErrors ≠ [] := by
      intro h0
      rw [h0] at h
      simp at h
    exact ⟨by simp [hne], fun h0 => absurd h0 hne, fun _ => rfl⟩
  · rw [if_neg h]
    have he : (runEvents env.events).errors ++ (runEvents env.events).consoleErrors = [] := by
      rw [← List.length_eq_zero]
      omega
    exact ⟨by simp [he], fun _ => rfl, fun h0 => absurd he h0⟩

/-- C2 witness: a clean run with no delivered events returns the exact
no-errors record. -/
theorem evalC2_witness :
    evaluateP5Sketch envClean "sketch.html" =
      { success := true, message := "No runtime errors detected.",
        errors := none } :=
  (evalC2_success_iff_no_errors envClean "sketch.html" rfl rfl rfl rfl).2.1 rfl

/-- C3: a runtime-error failure reports exactly the page-error buffer
followed by the console-error buffer, each the in-order projection of the
delivered event sequence; every entry of the first block carries the
pageerror tag and every entry of the second the console.error tag, so
every page error precedes every console error regardless of the
interleaving in which the two channels delivered their events. -/
theorem evalC3_page_errors_first (env : Env) (path : String)
    (hf : env.fileExists = true) (hl : env.launchThrow = none)
    (hp : env.newPageThrow = none) (hn : env.navThrow = none)
    (hfail : (evaluateP5Sketch env path).success = false) :
    (evaluateP5Sketch env path).errors =
      some (pageErrorsOf env.events ++ consoleErrorsOf env.events) ∧
    (∀ o ∈ pageErrorsOf env.events, o.type = "pageerror") ∧
    (∀ o ∈ consoleErrorsOf env.events, o.type = "console.error") := by
  rw [evaluateP5Sketch_clean env path hf hl hp hn] at hfail ⊢
  have hrep : reportResult env.events =
      if ((runEvents env.events).errors ++ (runEvents env.events).consoleErrors).length > 0 then
        { success := false, message := "Runtime errors detected.",
          errors := some ((runEvents env.events).errors ++
            (runEvents env.events).consoleErrors) }
      else
        { success := true, message := "No runtime errors detected.",
          errors := none } := rfl
  rw [hrep] at hfail ⊢
  by_cases h : ((runEvents env.events).errors ++ (runEvents env.events).consoleErrors).length > 0
  · rw [if_pos h]
    refine ⟨?_, mem_pageErrorsOf_tag env.events,
      fun o ho => (mem_consoleErrorsOf_filtered env.events o ho).1⟩
    rw [runEvents_eq]
  · rw [if_neg h] at hfail
    simp at hfail
/-- C3 witness: a run delivering a console error first and a page error
second still reports the page error first. -/
theorem evalC3_witness :
    (evaluateP5Sketch envMixed "sketch.html").errors =
      some (pageErrorsOf envMixed.events ++ consoleErrorsOf envMixed.events) ∧
    (∀ o ∈ pageErrorsOf envMixed.events, o.type = "pageerror") ∧
    (∀ o ∈ consoleErrorsOf envMixed.events, o.type = "console.error") :=
  evalC3_page_errors_first envMixed "sketch.html" rfl rfl rfl rfl (by decide)

/-- C4: the console policy.  An error-severity message whose text contains
the benign marker leaves the collector untouched (never buffered, never
emitted); every buffered console entry carries the console.error tag and a
text free of the marker, so a filtered message never reaches the errors of
the result; an error-severity message free of the marker is buffered and
emitted to the diagnostic stream; warning and log messages are emitted to
the diagnostic stream, and the page-error buffer receives only pageerror
entries, so no warning or log message is ever buffered as an error. -/
theorem evalC4_console_filter_policy (es : List PageEvent) (m : ConsoleMsg) :
    (∀ c : Collector, m.type = "error" →
      strIncludes m.text failedToLoadResource = true → onConsoleMsg c m = c) ∧
    (∀ o ∈ (runEvents es).consoleErrors,
      o.type = "console.error" ∧
      strIncludes o.message failedToLoadResource = false) ∧
    (PageEvent.console m ∈ es → m.type = "error" →
      strIncludes m.text failedToLoadResource = false →
      (⟨"console.error", m.text, none⟩ : ObservedError) ∈ (runEvents es).consoleErrors ∧
      ("Console error: " ++ m.text) ∈ (runEvents es).stderrOut) ∧
    (PageEvent.console m ∈ es → m.type = "warning" →
      ("Console warning: " ++ m.text) ∈ (runEvents es).stderrOut) ∧
    (PageEvent.console m ∈ es → m.type = "log" →
      ("Console log: " ++ m.text) ∈ (runEvents es).stderrOut) ∧
    (∀ c : Collector, m.type = "warning" ∨ m.type = "log" →
      (onConsoleMsg c m).errors = c.errors ∧
      (onConsoleMsg c m).consoleErrors = c.consoleErrors) := by
  refine ⟨?_, ?_, ?_, ?_, ?_, ?_⟩
  · intro c h1 h2
    unfold onConsoleMsg
    rw [h1, h2]
    simp
  · intro o ho
    rw [runEvents_eq] at ho
    exact ⟨(mem_consoleErrorsOf_filtered es o ho).1,
      (mem_consoleErrorsOf_filtered es o ho).2.2⟩
  · intro hm h1 h2
    rw [runEvents_eq]
    exact ⟨consoleError_mem_buffer es m hm h1 h2, (console_mem_stderr es m hm).1 h1 h2⟩
  · intro hm h1
    rw [runEvents_eq]
    exact (console_mem_stderr es m hm).2.1 h1
  · intro hm h1
    rw [runEvents_eq]
    exact (console_mem_stderr es m hm).2.2 h1
  · intro c h1
    rcases h1 with h1 | h1 <;>
      · unfold onConsoleMsg
        rw [h1]
        simp

/-- C4 witness: a benign error message leaves the collector unchanged;
a genuine console error is buffered and emitted. -/
theorem evalC4_witness :
    (⟨"console.error", "oops is not defined", none⟩ : ObservedError) ∈
      (runEvents envMixed.events).consoleErrors ∧
    ("Console error: " ++ "oops is not defined") ∈
      (runEvents envMixed.events).stderrOut :=
  (evalC4_console_filter_policy envMixed.events ⟨"error", "oops is not defined"⟩).2.2.1
    (by decide) rfl (by decide)

/-- C5: a launch, newPage or navigation throw (the latter covering the
30 000 ms navigation timeout) yields a failure result whose errors hold
exactly one entry of kind puppeteer_error with the underlying message and
stack, and the trace attempts no retry: navigate and a successful launch
each occur at most once. -/
theorem evalC5_puppeteer_failure_result (env : Env) (path : String) (e : JsError)
    (hf : env.fileExists = true)
    (h : env.launchThrow = some e ∨
      (env.launchThrow = none ∧ env.newPageThrow = some e) ∨
      (env.launchThrow = none ∧ env.newPageThrow = none ∧ env.navThrow = some e)) :
    evaluateP5Sketch env path =
      { success := false,
        message := "Puppeteer or navigation error: " ++ e.message,
        errors := some [⟨"puppeteer_error", e.message, some e.stack⟩] } ∧
    (trace env).count EvalAction.navigate ≤ 1 ∧
    (trace env).count EvalAction.launchOk ≤ 1 := by
  refine ⟨?_, trace_single_shot env⟩
  unfold evaluateP5Sketch
  rw [hf]
  rcases h with h1 | ⟨h1, h2⟩ | ⟨h1, h2, h3⟩
  · rw [h1]
    rfl
  · rw [h1, h2]
    rfl
  · rw [h1, h2, h3]
    rfl

/-- C5 witness: a concrete failing launch. -/
theorem evalC5_witness :
    evaluateP5Sketch envLaunchFailed "sketch.html" =
      { success := false,
        message := "Puppeteer or navigation error: " ++ jsLaunchError.message,
        errors := some [⟨"puppeteer_error", jsLaunchError.message,
          some jsLaunchError.stack⟩] } ∧
    (trace envLaunchFailed).count EvalAction.navigate ≤ 1 ∧
    (trace envLaunchFailed).count EvalAction.launchOk ≤ 1 :=
  evalC5_puppeteer_failure_result envLaunchFailed "sketch.html" jsLaunchError rfl
    (Or.inl rfl)

/-- C6 counterexample: the claim demands that every invocation opens
exactly one session and closes it exactly once; on a missing input file
the function returns before the launch, so zero sessions are opened and
zero closes occur. -/
theorem evalC6_counterexample :
    ¬ (sessionsOpened envMissingFile = 1 ∧ sessionsClosed envMissingFile = 1) := by
  decide

/-- C6 amended: at most one session is opened per invocation, and the
number of closes always equals the number of opens, so every session that
is opened is closed exactly once before the function returns and none is
ever left open; when the file is missing or the launch itself throws, no
session exists and no close occurs. -/
theorem evalC6_session_accounting (env : Env) :
    sessionsClosed env = sessionsOpened env ∧ sessionsOpened env ≤ 1 := by
  unfold sessionsClosed sessionsOpened
  rcases trace_shapes env with h | h | h | h | h <;> rw [h] <;> decide

/-- C7: whenever the evaluation reaches the navigation step, both listener
registrations appear in the trace and each strictly precedes navigate. -/
theorem evalC7_attach_before_navigate (env : Env)
    (h : EvalAction.navigate ∈ trace env) :
    EvalAction.attachPageErrorListener ∈ trace env ∧
    EvalAction.attachConsoleListener ∈ trace env ∧
    firstIdx EvalAction.attachPageErrorListener (trace env) <
      firstIdx EvalAction.navigate (trace env) ∧
    firstIdx EvalAction.attachConsoleListener (trace env) <
      firstIdx EvalAction.navigate (trace env) := by
  rcases trace_shapes env with ht | ht | ht | ht | ht <;> rw [ht] at h ⊢ <;>
    revert h <;> decide

/-- C7 witness: the clean run navigates, and both listeners are attached
strictly before. -/
theorem evalC7_witness :
    EvalAction.attachPageErrorListener ∈ trace envClean ∧
    EvalAction.attachConsoleListener ∈ trace envClean ∧
    firstIdx EvalAction.attachPageErrorListener (trace envClean) <
      firstIdx EvalAction.navigate (trace envClean) ∧
    firstIdx EvalAction.attachConsoleListener (trace envClean) <
      firstIdx EvalAction.navigate (trace envClean) :=
  evalC7_attach_before_navigate envClean (by decide)

/-- C8: the process exits 0 exactly when a positional argument was given,
no failure escaped to the top-level handler, and the evaluation result has
success = true; it exits 1 on a missing argument, on a missing file, on a
failure result, and on an unhandled top-level failure. -/
theorem evalC8_exit_codes (arg : Option String) (unh : Option JsError) (env : Env) :
    (runCli arg unh env = 0 ↔
      ∃ path, arg = some path ∧ unh = none ∧
        (evaluateP5Sketch env path).success = true) ∧
    (arg = none → runCli arg unh env = 1) ∧
    (∀ path, arg = some path → env.fileExists = false → runCli arg unh env = 1) ∧
    (∀ path, arg = some path → unh = none →
      (evaluateP5Sketch env path).success = false → runCli arg unh env = 1) ∧
    (∀ e, unh = some e → runCli arg unh env = 1) := by
  cases arg with
  | none =>
    refine ⟨⟨fun h0 => ?_, ?_⟩, fun _ => rfl, fun p hp => by simp at hp,
      fun p hp => by simp at hp, fun e he => rfl⟩
    · exact absurd h0 (by simp [runCli])
    · rintro ⟨p, hp, -, -⟩
      simp at hp
  | some path =>
    cases unh with
    | some e0 =>
      refine ⟨⟨fun h0 => ?_, ?_⟩, by simp, fun p hp hf => rfl,
        fun p hp hu => by simp at hu, fun e he => rfl⟩
      · exact absurd h0 (by simp [runCli])
      · rintro ⟨p, hp, hu, -⟩
        simp at hu
    | none =>
      have hrun : runCli (some path) none env =
          if (evaluateP5Sketch env path).success = true then 0 else 1 := rfl
      refine ⟨⟨fun h0 => ?_, ?_⟩, by simp, ?_, ?_, fun e he => by simp at he⟩
      · refine ⟨path, rfl, rfl, ?_⟩
        by_contra hs
        rw [hrun, if_neg hs] at h0
        simp at h0
      · rintro ⟨p, hp, -, hs⟩
        have hpe : path = p := Option.some.inj hp
        rw [hrun, if_pos (hpe ▸ hs)]
      · intro p hp hf
        rw [hrun, if_neg ?_]
        rw [success_false_of_no_file env path hf]
        simp
      · intro p hp hu hs
        have hpe : path = p := Option.some.inj hp
        rw [hrun, if_neg ?_]
        rw [hpe, hs]
        simp

/-- C8 witness: a present argument naming a missing file exits 1. -/
theorem evalC8_witness :
    runCli (some "missing.html") none envMissingFile = 1 :=
  (evalC8_exit_codes (some "missing.html") none envMissingFile).2.2.1
    "missing.html" rfl rfl

/-- C9: the missing-file failure carries no errors field at all, while
every other failure (launch, newPage or navigation throw, and runtime
errors) carries a present, non-empty errors sequence: a consumer must
treat the errors field as optional even when success is false. -/
theorem evalC9_errors_field_optional (env : Env) (path : String) :
    (env.fileExists = false →
      (evaluateP5Sketch env path).errors = none ∧
      (evaluateP5Sketch env path).success = false) ∧
    (env.fileExists = true → (evaluateP5Sketch env path).success = false →
      ∃ l, (evaluateP5Sketch env path).errors = some l ∧ l ≠ []) := by
  constructor
  · intro hf
    unfold evaluateP5Sketch
    rw [hf]
    exact ⟨rfl, rfl⟩
  · intro hf hs
    rcases evaluateP5Sketch_cases env path hf with ⟨e, he⟩ | he
    · rw [he]
      exact ⟨[⟨"puppeteer_error", e.message, some e.stack⟩], rfl, by simp⟩
    · rw [he] at hs ⊢
      have hrep : reportResult env.events =
          if ((runEvents env.events).errors ++
              (runEvents env.events).consoleErrors).length > 0 then
            { success := false, message := "Runtime errors detected.",
              errors := some ((runEvents env.events).errors ++
                (runEvents env.events).consoleErrors) }
          else
            { success := true, message := "No runtime errors detected.",
              errors := none } := rfl
      rw [hrep] at hs ⊢
      by_cases h : ((runEvents env.events).errors ++
          (runEvents env.events).consoleErrors).length > 0
      · rw [if_pos h]
        refine ⟨(runEvents env.events).errors ++
          (runEvents env.events).consoleErrors, rfl, ?_⟩
        intro h0
        rw [h0] at h
        simp at h
      · rw [if_neg h] at hs
        simp at hs

/-- C9 witness: the missing-file result has success = false and no errors
field. -/
theorem evalC9_witness :
    (evaluateP5Sketch envMissingFile "gone.html").errors = none ∧
    (evaluateP5Sketch envMissingFile "gone.html").success = false :=
  (evalC9_errors_field_optional envMissingFile "gone.html").1 rfl

/-- C10: every delivered uncaught page exception is buffered with its
message and stack, with no benign-substring filtering: the pageerror
listener pushes unconditionally, so the entry appears in the page-error
buffer even when its message contains the marker string. -/
theorem evalC10_pageerror_bypasses_filter (es : List PageEvent) (e : JsError)
    (h : PageEvent.pageError e ∈ es) :
    (⟨"pageerror", e.message, some e.stack⟩ : ObservedError) ∈ (runEvents es).errors := by
  rw [runEvents_eq]
  exact pageError_mem_buffer es e h

/-- A page exception whose message contains the benign marker, for the
C10 witness. -/
def benignTextPageError : JsError :=
  ⟨"Failed to load resource: net::ERR_FILE_NOT_FOUND", "resource stack"⟩

/-- C10 witness: the exception's message contains the marker string, yet
its pageerror entry is buffered. -/
theorem evalC10_witness :
    strIncludes benignTextPageError.message failedToLoadResource = true ∧
    (⟨"pageerror", benignTextPageError.message, some benignTextPageError.stack⟩ :
        ObservedError) ∈
      (runEvents [PageEvent.pageError benignTextPageError]).errors :=
  ⟨by decide,
    evalC10_pageerror_bypasses_filter [PageEvent.pageError benignTextPageError]
      benignTextPageError (by decide)⟩
